import Mathlib

/-!
Verification of the analysis layer of the diabetes recommendation engine.

Shallow embedding of the analysis modules of the repository
(`src/analysis/recommendations.py`, `src/analysis/iob_calculator.py`,
`src/analysis/predictor.py`), together with theorems settling the
specification claims about them.

Conventions:
* Python floats are modelled as rationals (`ℚ`) in the recommendation and
  predictor logic, and as reals (`ℝ`) in the IOB decay curves, which use
  `math.exp`.
* Timestamps are modelled as minutes (a number); `(current_time -
  entry.timestamp).total_seconds() / 60.0` becomes plain subtraction.
* `dict.get` of an optional key is modelled with `Option`.
* Free-text message fields and `datetime.now()` bookkeeping fields
  (`timestamp`, `next_check_time`, `recommender`) are not modelled: no claim
  mentions them.  The interpolated numbers inside reason strings are likewise
  dropped; the reason strings keep only their fixed prefix text.
* Python `round(x, n)` (banker's rounding on binary floats) is modelled with
  mathematical rounding to `n` decimal digits; the two agree except at exact
  half-way ties, which no theorem below depends on.
-/

namespace DiabetesRec

/-- Configuration values read from `src/config/settings.py` that the analysis
layer consumes.  Defaults in the source: low 70, high 180, critical low 55,
critical high 300, insulin effectiveness 40, insulin unit ratio 0.2,
carb effectiveness 15, target 120, IOB threshold 2. -/
structure Settings where
  low_glucose_threshold : ℚ
  high_glucose_threshold : ℚ
  critical_low_threshold : ℚ
  critical_high_threshold : ℚ
  insulin_effectiveness : ℚ
  insulin_unit_ratio : ℚ
  carb_effectiveness : ℚ
  target_glucose : ℚ
  iob_threshold_high : ℚ
  enable_insulin_recommendations : Bool
  enable_carb_recommendations : Bool
  deriving DecidableEq, Repr

/-- A glucose reading; the recommendation code only reads `.value`.
`readings[0]` is the most recent reading. -/
structure Reading where
  value : ℚ
  deriving DecidableEq, Repr

/-- The `trend_analysis` dict as consumed via `.get('trend')` and
`.get('rate_of_change', 0)`. -/
structure Trend where
  trend : Option String
  rate_of_change : Option ℚ
  deriving DecidableEq, Repr

/-- The `prediction` dict as consumed by the recommendation layer and by
`assess_prediction_risk` (`predicted_value`, `confidence`, `slope`). -/
structure Prediction where
  predicted_value : Option ℚ
  confidence : Option String
  slope : Option ℚ
  deriving DecidableEq, Repr

/-- The `iob_cob_data['iob']` sub-dict: `total_iob` and `is_override`. -/
structure IobCob where
  total_iob : ℚ
  is_override : Bool
  deriving DecidableEq, Repr

/-- A recommendation dict.  Keys that only some recommenders produce are
`Option`s / default-valued (Python dicts simply omit them). -/
structure Rec where
  rtype : String
  priority : ℤ
  urgency : Option String := none
  recommended_units : Option ℚ := none
  recommended_carbs : Option ℚ := none
  check_frequency_minutes : Option ℕ := none
  reasons : List String := []
  deriving DecidableEq, Repr

/-- Embedding of `round(x, 1)` on rationals. -/
def round1 (x : ℚ) : ℚ := (round (10 * x) : ℤ) / 10

/-- Embedding of `round(x, 0)` on rationals. -/
def round0 (x : ℚ) : ℚ := ((round x : ℤ) : ℚ)

/-! ## `InsulinRecommendation.analyze` (recommendations.py lines 42-137) -/

/-- Embedding of `InsulinRecommendation._is_stable_elevated_pattern`: needs at least 4
readings; the 4 most recent must average at or above the high threshold, vary
by at most 40, and the newest must not sit more than 10 below the oldest. -/
def isStableElevatedPattern (s : Settings) (readings : List Reading) : Bool :=
  match readings with
  | a :: b :: c :: d :: _ =>
    let avg := (a.value + b.value + c.value + d.value) / 4
    if avg < s.high_glucose_threshold then false
    else
      let max_val := max a.value (max b.value (max c.value d.value))
      let min_val := min a.value (min b.value (min c.value d.value))
      if 40 < max_val - min_val then false
      else if a.value < d.value - 10 then false
      else true
  | _ => false

/-- Embedding of `InsulinRecommendation._is_safe_slow_correction`: glucose at least 220
throughout the last 4 readings, rate of change in [-0.8, -0.1], values
strictly decreasing towards the present, and a total drop of at most 20. -/
def isSafeSlowCorrection (current_value rate_of_change : ℚ)
    (readings : List Reading) : Bool :=
  if current_value < 220 then false
  else if (-1/10 : ℚ) < rate_of_change ∨ rate_of_change < (-8/10 : ℚ) then false
  else match readings with
  | a :: b :: c :: d :: _ =>
    let min_val := min a.value (min b.value (min c.value d.value))
    if min_val < 220 then false
    else if b.value ≤ a.value ∨ c.value ≤ b.value ∨ d.value ≤ c.value then false
    else
      let total_drop := d.value - a.value
      if 20 < |total_drop| then false else true
  | _ => false

/-- Core of `InsulinRecommendation.analyze`: returns the unrounded
recommended units when a recommendation fires, `none` otherwise. -/
def insulinCore (s : Settings) (readings : List Reading) (ta : Trend)
    (iob_cob_data : Option IobCob) : Option ℚ :=
  match readings with
  | [] => none
  | r :: _ =>
    if !s.enable_insulin_recommendations then none
    else
      let current_value := r.value
      let current_iob : ℚ :=
        match iob_cob_data with
        | some d => if 0 < d.total_iob then d.total_iob else 0
        | none => 0
      if (match iob_cob_data with
          | some d => decide (0 < d.total_iob) && decide (s.iob_threshold_high < d.total_iob)
          | none => false) then none
      else if current_value < s.high_glucose_threshold then none
      else if ta.trend = some "fast_down" ∨ ta.trend = some "very_fast_down" then none
      else if ta.trend = some "down" ∧
          !isSafeSlowCorrection current_value (ta.rate_of_change.getD 0) readings then none
      else if !isStableElevatedPattern s readings then none
      else
        let excess_glucose := current_value - s.target_glucose
        let iob_adjustment := current_iob * s.insulin_effectiveness
        let adjusted_excess := excess_glucose - iob_adjustment
        if adjusted_excess ≤ 0 then none
        else
          let u0 := adjusted_excess / s.insulin_effectiveness * s.insulin_unit_ratio
          let u1 := if ta.trend = some "down" then u0 * (1/2) else u0
          some (max (1/10) (min 2 u1))

/-- Embedding of `InsulinRecommendation.analyze` (the `prediction` argument is unused by
the source body). -/
def insulinAnalyze (s : Settings) (readings : List Reading) (ta : Trend)
    (_pred : Prediction) (iob_cob_data : Option IobCob) : Option Rec :=
  (insulinCore s readings ta iob_cob_data).map fun u =>
    { rtype := "insulin", priority := 2, recommended_units := some (round1 u) }

/-! ## `CarbRecommendation.analyze` (recommendations.py lines 238-298) -/

/-- Core of `CarbRecommendation.analyze`: urgency and (rounded) grams. -/
def carbCore (s : Settings) (readings : List Reading) (ta : Trend)
    (pred : Prediction) : Option (String × ℚ) :=
  match readings with
  | [] => none
  | r :: _ =>
    if !s.enable_carb_recommendations then none
    else
      let current_value := r.value
      let urgency0 : Option String :=
        if current_value ≤ s.critical_low_threshold then some "critical"
        else if current_value ≤ s.low_glucose_threshold then some "high"
        else if current_value ≤ s.low_glucose_threshold * (12/10) ∧
            (ta.trend = some "fast_down" ∨ ta.trend = some "very_fast_down") then
          some "medium"
        else none
      match urgency0 with
      | none => none
      | some urg =>
        -- `if predicted_value and predicted_value <= low:` (0.0 is falsy)
        let urg2 :=
          match pred.predicted_value with
          | some pv =>
            if pv ≠ 0 ∧ pv ≤ s.low_glucose_threshold then
              if urg ≠ "critical" then "high" else urg
            else urg
          | none => urg
        let deficit0 := s.low_glucose_threshold - current_value
        let glucose_deficit := if deficit0 < 0 then 0 else deficit0
        let carb_grams :=
          min (max 15 (glucose_deficit / s.carb_effectiveness * 15)) 30
        some (urg2, round0 carb_grams)

/-- Embedding of `CarbRecommendation.analyze` (the `iob_cob_data` argument is unused by
the source body). -/
def carbAnalyze (s : Settings) (readings : List Reading) (ta : Trend)
    (pred : Prediction) (_iob_cob_data : Option IobCob) : Option Rec :=
  (carbCore s readings ta pred).map fun p =>
    { rtype := "carbohydrate", priority := 1, urgency := some p.1,
      recommended_carbs := some p.2 }

/-! ## `MonitoringRecommendation.analyze` (recommendations.py lines 335-393)

`datetime.now().hour` is passed in explicitly as `current_hour`. -/

/-- Rapid-change check: trend tag is one of the four fast tags. -/
def monRapid (ta : Trend) : Bool :=
  ta.trend = some "very_fast_up" || ta.trend = some "very_fast_down" ||
    ta.trend = some "fast_up" || ta.trend = some "fast_down"

/-- Proximity to the low threshold: `low*1.1 >= value >= low*0.9`. -/
def monLowProx (s : Settings) (current_value : ℚ) : Bool :=
  decide (current_value ≤ s.low_glucose_threshold * (11/10)) &&
    decide (s.low_glucose_threshold * (9/10) ≤ current_value)

/-- Proximity to the high threshold: `high*1.1 >= value >= high*0.9`. -/
def monHighProx (s : Settings) (current_value : ℚ) : Bool :=
  decide (current_value ≤ s.high_glucose_threshold * (11/10)) &&
    decide (s.high_glucose_threshold * (9/10) ≤ current_value)

/-- Low prediction confidence with at least 3 readings. -/
def monLowConf (pred : Prediction) (readings_len : ℕ) : Bool :=
  pred.confidence = some "low" && decide (3 ≤ readings_len)

/-- Nighttime (22:00-06:59) with an out-of-range value. -/
def monNight (current_hour : ℕ) (current_value : ℚ) : Bool :=
  (decide (22 ≤ current_hour) || decide (current_hour ≤ 6)) &&
    (decide (current_value < 100) || decide (200 < current_value))

/-- Core of `MonitoringRecommendation.analyze`: the `frequency_minutes`
variable starts at 60 and is overwritten by each matching check in turn;
the reasons list accumulates.  Returns `none` when no reason applies. -/
def monitoringCore (s : Settings) (readings : List Reading) (ta : Trend)
    (pred : Prediction) (current_hour : ℕ) : Option (ℕ × List String) :=
  match readings with
  | [] => none
  | r :: _ =>
    let current_value := r.value
    let rs0 : List String := []
    let f0 : ℕ := 60
    let c1 := monRapid ta
    let rs1 := if c1 then rs0 ++ ["rapid glucose changes detected"] else rs0
    let f1 := if c1 then 15 else f0
    let c2 := monLowProx s current_value
    let rs2 := if c2 then rs1 ++ ["approaching low threshold"] else rs1
    let f2 := if c2 then 30 else f1
    let c3 := monHighProx s current_value
    let rs3 := if c3 then rs2 ++ ["approaching high threshold"] else rs2
    let f3 := if c3 then 30 else f2
    let c4 := monLowConf pred readings.length
    let rs4 := if c4 then rs3 ++ ["unpredictable glucose pattern"] else rs3
    let f4 := if c4 then 45 else f3
    let c5 := monNight current_hour current_value
    let rs5 := if c5 then rs4 ++ ["nighttime out-of-range values"] else rs4
    let f5 := if c5 then 30 else f4
    if rs5 = [] then none else some (f5, rs5)

/-- Embedding of `MonitoringRecommendation.analyze`. -/
def monitoringAnalyze (s : Settings) (readings : List Reading) (ta : Trend)
    (pred : Prediction) (_iob_cob_data : Option IobCob) (current_hour : ℕ) :
    Option Rec :=
  (monitoringCore s readings ta pred current_hour).map fun p =>
    { rtype := "monitoring", priority := 5,
      check_frequency_minutes := some p.1, reasons := p.2 }

/-! ## `IOBStatusRecommendation.analyze` (recommendations.py lines 414-503) -/

/-- Embedding of `is_approaching_low`: within 20% of the low threshold, or a (truthy)
predicted value at or below it. -/
def isApproachingLow (s : Settings) (current_value : ℚ)
    (predicted_value : Option ℚ) : Bool :=
  decide (current_value ≤ s.low_glucose_threshold * (12/10)) ||
    (match predicted_value with
     | some pv => decide (pv ≠ 0) && decide (pv ≤ s.low_glucose_threshold)
     | none => false)

/-- Embedding of `is_going_high_fast`: a fast-up trend tag or a rate of change above 2. -/
def isGoingHighFast (ta : Trend) : Bool :=
  ta.trend = some "fast_up" || ta.trend = some "very_fast_up" ||
    decide ((2 : ℚ) < ta.rate_of_change.getD 0)

/-- Core of `IOBStatusRecommendation.analyze`: the urgency of the IOB status
check when one is recommended, `none` otherwise. -/
def iobStatusCore (s : Settings) (readings : List Reading) (ta : Trend)
    (pred : Prediction) (iob_cob_data : Option IobCob) : Option String :=
  match readings with
  | [] => none
  | r :: _ =>
    let current_value := r.value
    let has_iob_data := iob_cob_data.isSome
    let current_iob : ℚ :=
      match iob_cob_data with
      | some d => d.total_iob
      | none => 0
    let approaching_low := isApproachingLow s current_value pred.predicted_value
    let going_high_fast := isGoingHighFast ta
    if !has_iob_data || current_iob == 0 then
      if approaching_low then some "high"
      else if going_high_fast then some "medium"
      else if s.high_glucose_threshold < current_value then some "medium"
      else none
    else
      if approaching_low && decide ((3/10 : ℚ) < current_iob) then some "high"
      else if going_high_fast && decide (current_iob < (2/10 : ℚ)) then some "medium"
      else if (6/10 : ℚ) < current_iob then
        if 1 < current_iob ∧
            ¬(ta.trend = some "down" ∨ ta.trend = some "fast_down" ∨
              ta.trend = some "very_fast_down") then some "high"
        else some "medium"
      else if has_iob_data &&
          (match iob_cob_data with | some d => d.is_override | none => false) &&
          decide ((2/10 : ℚ) < current_iob) then some "low"
      else none

/-- Embedding of `IOBStatusRecommendation.analyze`. -/
def iobStatusAnalyze (s : Settings) (readings : List Reading) (ta : Trend)
    (pred : Prediction) (iob_cob_data : Option IobCob) : Option Rec :=
  (iobStatusCore s readings ta pred iob_cob_data).map fun urg =>
    { rtype := "iob_status", priority := 4, urgency := some urg }

/-! ## `RecommendationEngine` (recommendations.py lines 534-569) -/

/-- The sort key relation used by `recommendations.sort(key=lambda x:
x['priority'])`: ascending priority. -/
def recLE (a b : Rec) : Prop := a.priority ≤ b.priority

instance : DecidableRel recLE := fun a b =>
  inferInstanceAs (Decidable (a.priority ≤ b.priority))

instance : IsTotal Rec recLE := ⟨fun a b => le_total a.priority b.priority⟩

instance : IsTrans Rec recLE := ⟨fun _ _ _ hab hbc => le_trans hab hbc⟩

/-- Embedding of `RecommendationEngine.get_recommendations`: run the four recommenders in
their registration order (carb, insulin, monitoring, IOB status), keep the
non-`None` results, and sort them ascending by priority. -/
def getRecommendations (s : Settings) (readings : List Reading) (ta : Trend)
    (pred : Prediction) (iob_cob_data : Option IobCob) (current_hour : ℕ) :
    List Rec :=
  List.insertionSort recLE (List.filterMap id
    [carbAnalyze s readings ta pred iob_cob_data,
     insulinAnalyze s readings ta pred iob_cob_data,
     monitoringAnalyze s readings ta pred iob_cob_data current_hour,
     iobStatusAnalyze s readings ta pred iob_cob_data])

/-- Embedding of `RecommendationEngine.get_critical_recommendations`: the sublist with
urgency `'critical'` or priority at most 2. -/
def getCriticalRecommendations (recommendations : List Rec) : List Rec :=
  recommendations.filter fun r =>
    r.urgency = some "critical" || decide (r.priority ≤ 2)

/-! ## `GlucosePredictor._select_best_prediction` (predictor.py lines 274-333) -/

/-- One estimate of the prediction ensemble, as produced by the individual
prediction methods (`predicted_value`, `confidence`, `method`). -/
structure PredEstimate where
  predicted_value : Option ℚ
  confidence : String
  method : String
  deriving DecidableEq, Repr

/-- The failure dict returned when every prediction method failed. -/
def noValidPrediction : PredEstimate :=
  { predicted_value := none, confidence := "low",
    method := "no_valid_predictions" }

/-- The score assigned to one estimate by `_select_best_prediction`:
confidence bonus, extreme-change penalty, biological-plausibility penalty,
and a bonus for the linear method. -/
def scorePrediction (current_value : ℚ) (p : PredEstimate) : ℤ :=
  let conf : ℤ :=
    if p.confidence = "high" then 3
    else if p.confidence = "medium" then 2
    else if p.confidence = "low" then 1
    else 0
  let value_scores : ℤ :=
    match p.predicted_value with
    | some v =>
      let change_from_current := |v - current_value|
      (if 100 < change_from_current then -2
       else if 50 < change_from_current then -1
       else 0) +
      (if v < 20 ∨ 600 < v then -3 else 0)
    | none => 0
  let method_bonus : ℤ := if p.method = "linear_extrapolation" then 1 else 0
  conf + value_scores + method_bonus

/-- Embedding of `max(scored_predictions, key=lambda x: x[0])[1]`: the first estimate
attaining the maximal score (Python's `max` keeps the earlier element on
ties). -/
def maxByScore (current_value : ℚ) (first : PredEstimate)
    (rest : List PredEstimate) : PredEstimate :=
  rest.foldl
    (fun best p =>
      if scorePrediction current_value best < scorePrediction current_value p
      then p else best)
    first

/-- Embedding of `GlucosePredictor._select_best_prediction`.  `current_value` is
`readings[-1].value` (the caller guarantees at least 3 readings).  The
ensemble-statistics keys added for multi-method ensembles do not change the
selected estimate and are not modelled. -/
def selectBestPrediction (predictions : List PredEstimate)
    (current_value : ℚ) : PredEstimate :=
  match predictions with
  | [] => noValidPrediction
  | p :: ps => maxByScore current_value p ps

/-- Biological plausibility of the selected estimate: a present predicted
value within [20, 600]. -/
def plausibleEstimate (p : PredEstimate) : Bool :=
  match p.predicted_value with
  | some v => decide (20 ≤ v) && decide (v ≤ 600)
  | none => false

/-! ## `GlucosePredictor.assess_prediction_risk` (predictor.py lines 335-411) -/

/-- Result of `assess_prediction_risk`.  In the source the early-return dict
for a missing predicted value carries only the first two keys; the other two
are modelled as `none` there. -/
structure RiskResult where
  risk_level : String
  risk_factors : List String
  predicted_change : Option ℚ
  time_to_threshold : Option (List (String × ℚ))
  deriving DecidableEq, Repr

/-- Embedding of `GlucosePredictor._estimate_time_to_threshold`: minutes until each
threshold would be crossed at the fitted slope, kept when positive and within
two hours.  The thresholds dict iterates in insertion order: low,
critical_low, high, critical_high. -/
def estimateTimeToThreshold (s : Settings) (current : ℚ)
    (prediction : Prediction) : Option (List (String × ℚ)) :=
  match prediction.slope with
  | none => none
  | some slope =>
    if |slope| < 1/10 then none
    else
      let keep : ℚ → Bool := fun t => decide (0 < t) && decide (t ≤ 120)
      let est : ℚ → String → Bool → List (String × ℚ) := fun threshold nm isHigh =>
        if isHigh then
          if decide (0 < slope) && decide (current < threshold) then
            let t := (threshold - current) / slope
            if keep t then [(nm, round1 t)] else []
          else []
        else
          if decide (slope < 0) && decide (threshold < current) then
            let t := (current - threshold) / |slope|
            if keep t then [(nm, round1 t)] else []
          else []
      let estimates :=
        est s.low_glucose_threshold "low" false ++
        est s.critical_low_threshold "critical_low" false ++
        est s.high_glucose_threshold "high" true ++
        est s.critical_high_threshold "critical_high" true
      if estimates = [] then none else some estimates

/-- Embedding of `GlucosePredictor.assess_prediction_risk`.  The interpolated numbers in
the risk-factor strings are dropped; only their fixed prefixes are kept. -/
def assessPredictionRisk (s : Settings) (prediction : Prediction)
    (current_value : ℚ) : RiskResult :=
  match prediction.predicted_value with
  | none => { risk_level := "unknown", risk_factors := [],
              predicted_change := none, time_to_threshold := none }
  | some predicted_value =>
    let lvl_fac : String × List String :=
      if predicted_value ≤ s.critical_low_threshold then
        ("critical", ["Predicted critical low"])
      else if predicted_value ≤ s.low_glucose_threshold then
        ("high", ["Predicted low glucose"])
      else if s.critical_high_threshold ≤ predicted_value then
        ("critical", ["Predicted critical high"])
      else if s.high_glucose_threshold ≤ predicted_value then
        ("high", ["Predicted high glucose"])
      else ("low", [])
    let change := predicted_value - current_value
    let lvl_fac2 : String × List String :=
      if 50 < |change| then
        ((if lvl_fac.1 = "low" then "medium" else lvl_fac.1),
         lvl_fac.2 ++ ["Large predicted change"])
      else lvl_fac
    let lvl_fac3 : String × List String :=
      if prediction.confidence = some "low" then
        ((if lvl_fac2.1 = "low" then "medium" else lvl_fac2.1),
         lvl_fac2.2 ++ ["Low prediction confidence"])
      else lvl_fac2
    { risk_level := lvl_fac3.1, risk_factors := lvl_fac3.2,
      predicted_change := some (round1 change),
      time_to_threshold := estimateTimeToThreshold s current_value prediction }

/-! ## `IOBCalculator` (iob_calculator.py)

The decay curves use `math.exp`, so this part of the embedding lives in `ℝ`
(with `Real.exp`).  Timestamps are minutes; `(current_time -
entry.timestamp).total_seconds() / 60.0` is plain subtraction. -/

/-- An `InsulinEntry` as consumed by `IOBCalculator` (`notes` dropped). -/
structure InsulinEntry where
  timestamp : ℝ
  units : ℝ
  insulin_type : String
  duration_minutes : ℝ

/-- Embedding of `round(x, 2)` on reals (see the header note on Python's rounding). -/
noncomputable def round2R (x : ℝ) : ℝ := ((round (100 * x) : ℤ) : ℝ) / 100

/-- Embedding of `round(x, 0)` on reals. -/
noncomputable def round0R (x : ℝ) : ℝ := ((round x : ℤ) : ℝ)

/-- Embedding of `IOBCalculator._calculate_insulin_action` (lines 115-156): remaining
units after `minutes_elapsed` of a dose of `original_units` with the given
duration and insulin type. -/
noncomputable def calculateInsulinAction (original_units minutes_elapsed
    duration_minutes : ℝ) (insulin_type : String) : ℝ :=
  if duration_minutes ≤ minutes_elapsed then 0
  else
    let time_fraction := minutes_elapsed / duration_minutes
    if insulin_type = "rapid" then
      if minutes_elapsed ≤ 0 then original_units
      else
        let peak_time : ℝ := 75
        let action_fraction :=
          if minutes_elapsed ≤ peak_time then
            (minutes_elapsed / peak_time) * (15/100)
          else
            let decay_rate : ℝ := 25/1000
            let time_after_peak := minutes_elapsed - peak_time
            let remaining_fraction := 1 - 15/100 -
              ((85/100) * (1 - Real.exp (-decay_rate * time_after_peak)))
            max 0 remaining_fraction
        original_units * (1 - min (action_fraction * (duration_minutes / 180)) 1)
    else if insulin_type = "long_acting" then
      original_units * (1 - time_fraction * (8/10))
    else
      original_units * (1 - time_fraction)

/-- One breakdown entry of the IOB result (`notes` dropped). -/
structure IobBreakdown where
  timestamp : ℝ
  original_units : ℝ
  remaining_units : ℝ
  insulin_type : String
  minutes_ago : ℝ

/-- The dict returned by `IOBCalculator.calculate_iob`. -/
structure IobResult where
  total_iob : ℝ
  breakdown : List IobBreakdown
  entries_count : ℕ
  is_override : Bool

/-- The remaining IOB `calculate_iob` computes for one entry: zero once the
duration has passed, the action curve otherwise (lines 41-53). -/
noncomputable def entryRemainingIob (current_time : ℝ) (e : InsulinEntry) : ℝ :=
  let time_since_dose := current_time - e.timestamp
  if e.duration_minutes ≤ time_since_dose then 0
  else calculateInsulinAction e.units time_since_dose e.duration_minutes
    e.insulin_type

/-- The breakdown dict `calculate_iob` appends for a significant entry. -/
noncomputable def mkIobBreakdown (current_time : ℝ) (e : InsulinEntry) :
    IobBreakdown :=
  { timestamp := e.timestamp, original_units := e.units,
    remaining_units := round2R (entryRemainingIob current_time e),
    insulin_type := e.insulin_type,
    minutes_ago := round0R (current_time - e.timestamp) }

/-- Embedding of `IOBCalculator.calculate_iob` (lines 16-73): the override short-circuit,
else the per-entry loop keeping entries whose remaining IOB exceeds 0.01. -/
noncomputable def calculateIob (insulin_entries : List InsulinEntry)
    (current_time : ℝ) (iob_override : Option ℝ) : IobResult :=
  match iob_override with
  | some ov =>
    { total_iob := round2R ov,
      breakdown := [{ timestamp := current_time, original_units := ov,
                      remaining_units := ov, insulin_type := "override",
                      minutes_ago := 0 }],
      entries_count := 1, is_override := true }
  | none =>
    let acc := insulin_entries.foldl
      (fun (acc : ℝ × List IobBreakdown) e =>
        let remaining_iob := entryRemainingIob current_time e
        if 1/100 < remaining_iob then
          (acc.1 + remaining_iob, acc.2 ++ [mkIobBreakdown current_time e])
        else acc)
      (0, [])
    { total_iob := round2R acc.1, breakdown := acc.2,
      entries_count := acc.2.length, is_override := false }

/-! ## Concrete inputs used by witnesses and counterexamples -/

/-- The default configuration from `settings.py` (low 70, high 180, critical
low 55, critical high 300, effectiveness 40, unit ratio 0.2, carb
effectiveness 15, target 120, IOB threshold 2, both recommenders enabled). -/
def stdSettings : Settings :=
  { low_glucose_threshold := 70, high_glucose_threshold := 180,
    critical_low_threshold := 55, critical_high_threshold := 300,
    insulin_effectiveness := 40, insulin_unit_ratio := 1/5,
    carb_effectiveness := 15, target_glucose := 120, iob_threshold_high := 2,
    enable_insulin_recommendations := true,
    enable_carb_recommendations := true }

/-- A trend dict whose tag is `fast_down`. -/
def taFastDown : Trend := { trend := some "fast_down", rate_of_change := none }

/-- An empty prediction dict. -/
def predEmpty : Prediction :=
  { predicted_value := none, confidence := none, slope := none }

/-! ## Claim theorems -/

/-- C10: when the prediction carries no predicted value,
`assess_prediction_risk` returns risk level `unknown` with an empty list of
risk factors (and no change/threshold estimates), instead of classifying the
prediction against the glucose thresholds. -/
theorem assess_risk_unknown_on_missing_prediction (s : Settings)
    (prediction : Prediction) (current_value : ℚ)
    (h : prediction.predicted_value = none) :
    assessPredictionRisk s prediction current_value =
      { risk_level := "unknown", risk_factors := [],
        predicted_change := none, time_to_threshold := none } := by
  unfold assessPredictionRisk
  rw [h]

/-- Witness for C10 at a concrete input. -/
theorem assess_risk_unknown_on_missing_prediction_witness :
    assessPredictionRisk stdSettings predEmpty 100 =
      { risk_level := "unknown", risk_factors := [],
        predicted_change := none, time_to_threshold := none } :=
  assess_risk_unknown_on_missing_prediction stdSettings predEmpty 100 rfl

/-- C4 (amended): with an IOB override supplied, `calculate_iob` returns the
override value rounded to two decimals as the total, flags the result as an
override, and ignores the insulin entries entirely. -/
theorem iob_override_short_circuit (insulin_entries : List InsulinEntry)
    (current_time : ℝ) (ov : ℝ) :
    (calculateIob insulin_entries current_time (some ov)).total_iob = round2R ov ∧
    (calculateIob insulin_entries current_time (some ov)).is_override = true ∧
    (calculateIob insulin_entries current_time (some ov)).breakdown =
      [{ timestamp := current_time, original_units := ov,
         remaining_units := ov, insulin_type := "override",
         minutes_ago := 0 }] :=
  ⟨rfl, rfl, rfl⟩

/-- C4 counterexample: the returned total is the override value rounded to
two decimals, so for the override 1.234 the total is 1.23, not the override
value itself as the claim states. -/
theorem iob_override_rounding_counterexample :
    (calculateIob [] 0 (some (1234/1000))).total_iob ≠ 1234/1000 := by
  show round2R (1234/1000) ≠ 1234/1000
  unfold round2R
  have h : round ((100 : ℝ) * (1234/1000)) = 123 := by
    norm_num [round_eq]
  rw [h]
  norm_num

set_option maxHeartbeats 1000000 in
/-- Helper for C2: `InsulinRecommendation.analyze` bails out under a
rapidly-falling trend tag or a supplied IOB above a (nonnegative) high-IOB
threshold. -/
lemma insulinCore_none_of_suppressed (s : Settings) (readings : List Reading)
    (ta : Trend) (iob_cob_data : Option IobCob) (d : IobCob)
    (h : ta.trend = some "fast_down" ∨ ta.trend = some "very_fast_down" ∨
      (iob_cob_data = some d ∧ s.iob_threshold_high < d.total_iob ∧
        0 ≤ s.iob_threshold_high)) :
    insulinCore s readings ta iob_cob_data = none := by
  cases readings with
  | nil => rfl
  | cons r rest =>
    rcases h with h | h | ⟨hiob, hlt, hnn⟩
    · simp [insulinCore, h]
    · simp [insulinCore, h]
    · subst hiob
      have hcond : (decide (0 < d.total_iob) &&
          decide (s.iob_threshold_high < d.total_iob)) = true := by
        simp [hlt, lt_of_le_of_lt hnn hlt]
      simp [insulinCore, hcond]

/-- C2: `InsulinRecommendation.analyze` returns no recommendation when the
trend tag is `fast_down` or `very_fast_down`, and likewise when the supplied
total IOB exceeds the (nonnegative) configured high-IOB threshold. -/
theorem insulin_suppression_invariant (s : Settings) (readings : List Reading)
    (ta : Trend) (pred : Prediction) (iob_cob_data : Option IobCob)
    (d : IobCob)
    (h : ta.trend = some "fast_down" ∨ ta.trend = some "very_fast_down" ∨
      (iob_cob_data = some d ∧ s.iob_threshold_high < d.total_iob ∧
        0 ≤ s.iob_threshold_high)) :
    insulinAnalyze s readings ta pred iob_cob_data = none := by
  unfold insulinAnalyze
  rw [insulinCore_none_of_suppressed s readings ta iob_cob_data d h]
  rfl

/-- Witness for C2 at concrete inputs: a fast-down trend, and separately a
supplied IOB of 3 units against the default threshold 2. -/
theorem insulin_suppression_invariant_witness :
    insulinAnalyze stdSettings [{ value := 250 }] taFastDown predEmpty none
        = none ∧
      insulinAnalyze stdSettings [{ value := 250 }]
        { trend := some "no_change", rate_of_change := none } predEmpty
        (some { total_iob := 3, is_override := false }) = none :=
  ⟨insulin_suppression_invariant stdSettings [{ value := 250 }] taFastDown
      predEmpty none { total_iob := 0, is_override := false } (Or.inl rfl),
    insulin_suppression_invariant stdSettings [{ value := 250 }]
      { trend := some "no_change", rate_of_change := none } predEmpty
      (some { total_iob := 3, is_override := false })
      { total_iob := 3, is_override := false }
      (Or.inr (Or.inr ⟨rfl, by norm_num [stdSettings], by norm_num [stdSettings]⟩))⟩

/-- C5: `get_recommendations` always returns a list sorted ascending by
priority, and `get_critical_recommendations` keeps exactly the entries whose
urgency is `critical` or whose priority is at most 2. -/
theorem recommendations_sorted_and_critical_filter :
    (∀ (s : Settings) (readings : List Reading) (ta : Trend)
        (pred : Prediction) (iob_cob_data : Option IobCob) (current_hour : ℕ),
      (getRecommendations s readings ta pred iob_cob_data
        current_hour).Sorted recLE) ∧
    (∀ (l : List Rec) (r : Rec),
      r ∈ getCriticalRecommendations l ↔
        r ∈ l ∧ (r.urgency = some "critical" ∨ r.priority ≤ 2)) := by
  constructor
  · intro s readings ta pred iob_cob_data current_hour
    exact List.sorted_insertionSort recLE _
  · intro l r
    simp [getCriticalRecommendations, List.mem_filter]

/-! ### C8: one recommendation per type -/

lemma carbAnalyze_rtype {s : Settings} {readings : List Reading} {ta : Trend}
    {pred : Prediction} {iob_cob_data : Option IobCob} {r : Rec}
    (h : carbAnalyze s readings ta pred iob_cob_data = some r) :
    r.rtype = "carbohydrate" := by
  obtain ⟨p, _, rfl⟩ := Option.map_eq_some'.mp h
  rfl

lemma insulinAnalyze_rtype {s : Settings} {readings : List Reading}
    {ta : Trend} {pred : Prediction} {iob_cob_data : Option IobCob} {r : Rec}
    (h : insulinAnalyze s readings ta pred iob_cob_data = some r) :
    r.rtype = "insulin" := by
  obtain ⟨p, _, rfl⟩ := Option.map_eq_some'.mp h
  rfl

lemma monitoringAnalyze_rtype {s : Settings} {readings : List Reading}
    {ta : Trend} {pred : Prediction} {iob_cob_data : Option IobCob}
    {current_hour : ℕ} {r : Rec}
    (h : monitoringAnalyze s readings ta pred iob_cob_data current_hour =
      some r) : r.rtype = "monitoring" := by
  obtain ⟨p, _, rfl⟩ := Option.map_eq_some'.mp h
  rfl

lemma iobStatusAnalyze_rtype {s : Settings} {readings : List Reading}
    {ta : Trend} {pred : Prediction} {iob_cob_data : Option IobCob} {r : Rec}
    (h : iobStatusAnalyze s readings ta pred iob_cob_data = some r) :
    r.rtype = "iob_status" := by
  obtain ⟨p, _, rfl⟩ := Option.map_eq_some'.mp h
  rfl

/-- A list of recommendations with pairwise-distinct types mentions any given
type at most once. -/
lemma countP_le_one_of_pairwise_ne {l : List Rec} (t : String)
    (hl : l.Pairwise (fun a b => a.rtype ≠ b.rtype)) :
    l.countP (fun r => decide (r.rtype = t)) ≤ 1 := by
  induction l with
  | nil => simp
  | cons a l ih =>
    rw [List.countP_cons]
    rcases List.pairwise_cons.mp hl with ⟨ha, hl2⟩
    by_cases hat : a.rtype = t
    · have hz : l.countP (fun r => decide (r.rtype = t)) = 0 :=
        List.countP_eq_zero.mpr fun b hb => by
          simp only [decide_eq_true_eq]
          exact fun hbt => ha b hb (hat.trans hbt.symm)
      simp [hz, hat]
    · rw [if_neg (by simpa using hat)]
      simpa using ih hl2

/-- The recommendation list carries pairwise-distinct types: each of the four
recommenders contributes at most one entry, of its own fixed type. -/
lemma getRecommendations_pairwise_types (s : Settings)
    (readings : List Reading) (ta : Trend) (pred : Prediction)
    (iob_cob_data : Option IobCob) (current_hour : ℕ) :
    (getRecommendations s readings ta pred iob_cob_data
      current_hour).Pairwise (fun a b => a.rtype ≠ b.rtype) := by
  have hperm := List.perm_insertionSort recLE (List.filterMap id
    [carbAnalyze s readings ta pred iob_cob_data,
     insulinAnalyze s readings ta pred iob_cob_data,
     monitoringAnalyze s readings ta pred iob_cob_data current_hour,
     iobStatusAnalyze s readings ta pred iob_cob_data])
  unfold getRecommendations
  rw [hperm.pairwise_iff fun hab => Ne.symm hab]
  rw [List.pairwise_filterMap]
  simp only [List.pairwise_cons, List.mem_cons, List.not_mem_nil,
    Option.mem_def, id_eq, List.Pairwise.nil, and_true]
  refine ⟨?_, ?_, ?_, ?_⟩
  · rintro o (rfl | rfl | rfl | h) b hb b' hb'
    · rw [carbAnalyze_rtype hb, insulinAnalyze_rtype hb']; decide
    · rw [carbAnalyze_rtype hb, monitoringAnalyze_rtype hb']; decide
    · rw [carbAnalyze_rtype hb, iobStatusAnalyze_rtype hb']; decide
    · exact absurd h (by simp)
  · rintro o (rfl | rfl | h) b hb b' hb'
    · rw [insulinAnalyze_rtype hb, monitoringAnalyze_rtype hb']; decide
    · rw [insulinAnalyze_rtype hb, iobStatusAnalyze_rtype hb']; decide
    · exact absurd h (by simp)
  · rintro o (rfl | h) b hb b' hb'
    · rw [monitoringAnalyze_rtype hb, iobStatusAnalyze_rtype hb']; decide
    · exact absurd h (by simp)
  · rintro o h b hb b' hb'
    exact absurd h (by simp)

/-- C8: a single `get_recommendations` call yields at most one
recommendation of any given type and hence at most four recommendations. -/
theorem recommendations_at_most_one_per_type (s : Settings)
    (readings : List Reading) (ta : Trend) (pred : Prediction)
    (iob_cob_data : Option IobCob) (current_hour : ℕ) (t : String) :
    (getRecommendations s readings ta pred iob_cob_data current_hour).countP
        (fun r => decide (r.rtype = t)) ≤ 1 ∧
    (getRecommendations s readings ta pred iob_cob_data
      current_hour).length ≤ 4 := by
  constructor
  · exact countP_le_one_of_pairwise_ne t
      (getRecommendations_pairwise_types s readings ta pred iob_cob_data
        current_hour)
  · have hperm := List.perm_insertionSort recLE (List.filterMap id
      [carbAnalyze s readings ta pred iob_cob_data,
       insulinAnalyze s readings ta pred iob_cob_data,
       monitoringAnalyze s readings ta pred iob_cob_data current_hour,
       iobStatusAnalyze s readings ta pred iob_cob_data])
    rw [show getRecommendations s readings ta pred iob_cob_data current_hour =
      List.insertionSort recLE (List.filterMap id
        [carbAnalyze s readings ta pred iob_cob_data,
         insulinAnalyze s readings ta pred iob_cob_data,
         monitoringAnalyze s readings ta pred iob_cob_data current_hour,
         iobStatusAnalyze s readings ta pred iob_cob_data]) from rfl]
    rw [hperm.length_eq]
    exact le_trans (List.length_filterMap_le _ _) (by simp)

/-! ### C9: carbohydrate and insulin recommendations exclude each other -/

/-- The embedded `CarbRecommendation.analyze` fires only for readings at or below one of
its three low-side guards. -/
lemma carbCore_fires {s : Settings} {r : Reading} {rest : List Reading}
    {ta : Trend} {pred : Prediction} {p : String × ℚ}
    (h : carbCore s (r :: rest) ta pred = some p) :
    r.value ≤ s.critical_low_threshold ∨ r.value ≤ s.low_glucose_threshold ∨
      (r.value ≤ s.low_glucose_threshold * (12/10) ∧
        (ta.trend = some "fast_down" ∨ ta.trend = some "very_fast_down")) := by
  by_cases h1 : r.value ≤ s.critical_low_threshold
  · exact Or.inl h1
  by_cases h2 : r.value ≤ s.low_glucose_threshold
  · exact Or.inr (Or.inl h2)
  by_cases h3 : r.value ≤ s.low_glucose_threshold * (12/10) ∧
      (ta.trend = some "fast_down" ∨ ta.trend = some "very_fast_down")
  · exact Or.inr (Or.inr h3)
  exfalso
  cases he : s.enable_carb_recommendations <;>
    simp [carbCore, he, h1, h2, h3] at h

/-- The embedded `InsulinRecommendation.analyze` fires only at or above the high threshold
and never under a rapidly-falling trend tag. -/
lemma insulinCore_fires {s : Settings} {r : Reading} {rest : List Reading}
    {ta : Trend} {iob_cob_data : Option IobCob} {u : ℚ}
    (h : insulinCore s (r :: rest) ta iob_cob_data = some u) :
    s.high_glucose_threshold ≤ r.value ∧
      ¬(ta.trend = some "fast_down" ∨ ta.trend = some "very_fast_down") := by
  by_cases hv : r.value < s.high_glucose_threshold
  · exfalso
    simp [insulinCore, hv] at h
  by_cases ht : ta.trend = some "fast_down" ∨ ta.trend = some "very_fast_down"
  · exfalso
    rw [insulinCore_none_of_suppressed s (r :: rest) ta iob_cob_data
      { total_iob := 0, is_override := false } (ht.imp id Or.inl)] at h
    exact Option.noConfusion h
  exact ⟨not_lt.mp hv, ht⟩

/-- Membership in the engine output comes from one of the four
recommenders. -/
lemma mem_getRecommendations {s : Settings} {readings : List Reading}
    {ta : Trend} {pred : Prediction} {iob_cob_data : Option IobCob}
    {current_hour : ℕ} {r : Rec} :
    r ∈ getRecommendations s readings ta pred iob_cob_data current_hour ↔
      carbAnalyze s readings ta pred iob_cob_data = some r ∨
      insulinAnalyze s readings ta pred iob_cob_data = some r ∨
      monitoringAnalyze s readings ta pred iob_cob_data current_hour = some r ∨
      iobStatusAnalyze s readings ta pred iob_cob_data = some r := by
  unfold getRecommendations
  rw [List.mem_insertionSort]
  simp [List.mem_filterMap, eq_comm]

/-- C9 (amended): with sane thresholds (nonnegative low threshold, critical
low at most the low threshold, and 1.2·low strictly below high), a single
engine call never returns both a carbohydrate and an insulin
recommendation. -/
theorem carb_insulin_mutual_exclusion (s : Settings)
    (h0 : 0 ≤ s.low_glucose_threshold)
    (h1 : s.critical_low_threshold ≤ s.low_glucose_threshold)
    (h2 : s.low_glucose_threshold * (12/10) < s.high_glucose_threshold)
    (readings : List Reading) (ta : Trend) (pred : Prediction)
    (iob_cob_data : Option IobCob) (current_hour : ℕ) :
    ¬((∃ r ∈ getRecommendations s readings ta pred iob_cob_data current_hour,
          r.rtype = "carbohydrate") ∧
      (∃ r ∈ getRecommendations s readings ta pred iob_cob_data current_hour,
          r.rtype = "insulin")) := by
  rintro ⟨⟨rc, hrcm, hrct⟩, ri, hrim, hrit⟩
  rw [mem_getRecommendations] at hrcm hrim
  have hc : carbAnalyze s readings ta pred iob_cob_data = some rc := by
    rcases hrcm with h | h | h | h
    · exact h
    · simp [insulinAnalyze_rtype h] at hrct
    · simp [monitoringAnalyze_rtype h] at hrct
    · simp [iobStatusAnalyze_rtype h] at hrct
  have hi : insulinAnalyze s readings ta pred iob_cob_data = some ri := by
    rcases hrim with h | h | h | h
    · simp [carbAnalyze_rtype h] at hrit
    · exact h
    · simp [monitoringAnalyze_rtype h] at hrit
    · simp [iobStatusAnalyze_rtype h] at hrit
  obtain ⟨pc, hpc, _⟩ := Option.map_eq_some'.mp hc
  obtain ⟨ui, hui, _⟩ := Option.map_eq_some'.mp hi
  cases readings with
  | nil => simp [carbCore] at hpc
  | cons r rest =>
    have hcf := carbCore_fires hpc
    have hif := insulinCore_fires hui
    rcases hcf with hv | hv | ⟨hv, htrend⟩
    · linarith [hif.1]
    · linarith [hif.1]
    · exact hif.2 htrend

/-- Witness for C9 at the default configuration. -/
theorem carb_insulin_mutual_exclusion_witness :
    ¬((∃ r ∈ getRecommendations stdSettings [] taFastDown predEmpty none 12,
          r.rtype = "carbohydrate") ∧
      (∃ r ∈ getRecommendations stdSettings [] taFastDown predEmpty none 12,
          r.rtype = "insulin")) :=
  carb_insulin_mutual_exclusion stdSettings (by norm_num [stdSettings])
    (by norm_num [stdSettings]) (by norm_num [stdSettings]) [] taFastDown
    predEmpty none 12

/-- A pathological configuration whose critical-low threshold (300) sits
above the high threshold (180) while still satisfying the claim's stated
precondition `1.2 · low < high`. -/
def badSettings : Settings :=
  { low_glucose_threshold := 100, high_glucose_threshold := 180,
    critical_low_threshold := 300, critical_high_threshold := 400,
    insulin_effectiveness := 40, insulin_unit_ratio := 1/5,
    carb_effectiveness := 15, target_glucose := 120, iob_threshold_high := 2,
    enable_insulin_recommendations := true,
    enable_carb_recommendations := true }

/-- Four stable elevated readings (most recent first). -/
def readsElevated : List Reading :=
  [{ value := 250 }, { value := 245 }, { value := 250 }, { value := 255 }]

/-- A trend dict with no trend tag (as `dict.get` yields for a missing
key). -/
def taNone : Trend := { trend := none, rate_of_change := none }

/-- C9 counterexample: under `badSettings` the claim's precondition
`1.2 · low < high` holds, yet one call returns both a carbohydrate (the
reading 250 is under the critical-low threshold 300) and an insulin
recommendation (250 is over the high threshold 180). -/
theorem carb_insulin_coexist_counterexample :
    badSettings.low_glucose_threshold * (12/10) <
        badSettings.high_glucose_threshold ∧
      (∃ r ∈ getRecommendations badSettings readsElevated taNone
          predEmpty none 12, r.rtype = "carbohydrate") ∧
      (∃ r ∈ getRecommendations badSettings readsElevated taNone
          predEmpty none 12, r.rtype = "insulin") := by
  have hc : carbCore badSettings readsElevated taNone predEmpty =
      some ("critical", 15) := by
    norm_num [carbCore, badSettings, readsElevated, taNone, predEmpty,
      round0, round_eq, min_def, max_def]
  have hi : insulinCore badSettings readsElevated taNone none =
      some (13/20) := by
    norm_num [insulinCore, badSettings, readsElevated, taNone,
      isStableElevatedPattern, min_def, max_def]
    refine ⟨by simp, by simp, ?_⟩
    simp
    norm_num
  have hca : carbAnalyze badSettings readsElevated taNone predEmpty none =
      some { rtype := "carbohydrate", priority := 1,
             urgency := some "critical", recommended_carbs := some 15 } := by
    unfold carbAnalyze
    rw [hc]
    rfl
  have hia : insulinAnalyze badSettings readsElevated taNone predEmpty
      none = some { rtype := "insulin", priority := 2,
                    recommended_units := some (round1 (13/20)) } := by
    unfold insulinAnalyze
    rw [hi]
    rfl
  refine ⟨by norm_num [badSettings], ?_, ?_⟩
  · exact ⟨_, mem_getRecommendations.mpr (Or.inl hca), rfl⟩
  · exact ⟨_, mem_getRecommendations.mpr (Or.inr (Or.inl hia)), rfl⟩

/-! ### C6: monitoring check frequency -/

/-- The check interval the sequential overwrites in
`MonitoringRecommendation.analyze` actually settle on: the interval of the
*last* applicable check in source order (rapid 15, low-proximity 30,
high-proximity 30, low-confidence 45, nighttime 30); 60 when none applies. -/
def monFreqSpec (s : Settings) (readings : List Reading) (ta : Trend)
    (pred : Prediction) (current_hour : ℕ) : ℕ :=
  match readings with
  | [] => 60
  | r :: _ =>
    if monNight current_hour r.value then 30
    else if monLowConf pred readings.length then 45
    else if monHighProx s r.value then 30
    else if monLowProx s r.value then 30
    else if monRapid ta then 15
    else 60

/-- C6 (amended): whenever `MonitoringRecommendation.analyze` returns a
recommendation, its `check_frequency_minutes` equals the interval of the last
applicable check in source order — not the tightest one. -/
theorem monitoring_frequency_last_match (s : Settings)
    (readings : List Reading) (ta : Trend) (pred : Prediction)
    (current_hour : ℕ) (f : ℕ) (rs : List String)
    (h : monitoringCore s readings ta pred current_hour = some (f, rs)) :
    f = monFreqSpec s readings ta pred current_hour := by
  cases readings with
  | nil => simp [monitoringCore] at h
  | cons r rest =>
    simp only [monitoringCore, monFreqSpec] at h ⊢
    cases c1 : monRapid ta <;>
      cases c2 : monLowProx s r.value <;>
      cases c3 : monHighProx s r.value <;>
      cases c4 : monLowConf pred (rest.length + 1) <;>
      cases c5 : monNight current_hour r.value <;>
      simp_all

/-- Three identical readings at 150 mg/dL. -/
def readsFlat150 : List Reading :=
  [{ value := 150 }, { value := 150 }, { value := 150 }]

/-- A fast-up trend dict. -/
def taFastUp : Trend := { trend := some "fast_up", rate_of_change := none }

/-- A prediction with low confidence and no value. -/
def predLowConf : Prediction :=
  { predicted_value := none, confidence := some "low", slope := none }

lemma monitoringCore_flat150 :
    monitoringCore stdSettings readsFlat150 taFastUp predLowConf 12 =
      some (45, ["rapid glucose changes detected",
        "unpredictable glucose pattern"]) := by
  simp [monitoringCore, monRapid, monLowProx, monHighProx, monLowConf,
    monNight, stdSettings, readsFlat150, taFastUp, predLowConf]
  norm_num

/-- C6 counterexample: with a fast-up trend (15-minute reason) and low
prediction confidence (45-minute reason) both applicable, the returned
interval is 45, not the tightest applicable interval 15. -/
theorem monitoring_frequency_counterexample :
    monitoringCore stdSettings readsFlat150 taFastUp predLowConf 12 =
        some (45, ["rapid glucose changes detected",
          "unpredictable glucose pattern"]) ∧
      monRapid taFastUp = true ∧ (45 : ℕ) ≠ 15 :=
  ⟨monitoringCore_flat150, rfl, by decide⟩

/-- Witness for C6's amended theorem at a concrete input. -/
theorem monitoring_frequency_last_match_witness :
    (45 : ℕ) = monFreqSpec stdSettings readsFlat150 taFastUp predLowConf 12 :=
  monitoring_frequency_last_match stdSettings readsFlat150 taFastUp
    predLowConf 12 45 ["rapid glucose changes detected",
      "unpredictable glucose pattern"] monitoringCore_flat150

/-! ### C3: selection of the best prediction -/

/-- The selected estimate is one of the candidates. -/
lemma maxByScore_mem (cv : ℚ) (first : PredEstimate)
    (rest : List PredEstimate) : maxByScore cv first rest ∈ first :: rest := by
  induction rest generalizing first with
  | nil => simp [maxByScore]
  | cons p ps ih =>
    have hred : maxByScore cv first (p :: ps) =
        maxByScore cv (if scorePrediction cv first < scorePrediction cv p
          then p else first) ps := rfl
    have h2 := ih (if scorePrediction cv first < scorePrediction cv p
      then p else first)
    rw [hred]
    rcases List.mem_cons.mp h2 with h | h
    · rw [h]
      split_ifs <;> simp
    · exact List.mem_cons_of_mem _ (List.mem_cons_of_mem _ h)

/-- The selected estimate attains the maximal score among the candidates. -/
lemma maxByScore_ge (cv : ℚ) (first : PredEstimate)
    (rest : List PredEstimate) :
    ∀ q ∈ first :: rest,
      scorePrediction cv q ≤ scorePrediction cv (maxByScore cv first rest) := by
  induction rest generalizing first with
  | nil =>
    intro q hq
    rcases List.mem_cons.mp hq with rfl | h
    · simp [maxByScore]
    · simp at h
  | cons p ps ih =>
    intro q hq
    have hred : maxByScore cv first (p :: ps) =
        maxByScore cv (if scorePrediction cv first < scorePrediction cv p
          then p else first) ps := rfl
    have hfirst : scorePrediction cv first ≤ scorePrediction cv
        (if scorePrediction cv first < scorePrediction cv p
          then p else first) := by
      split_ifs with hsp
      · exact le_of_lt hsp
      · exact le_rfl
    have hp : scorePrediction cv p ≤ scorePrediction cv
        (if scorePrediction cv first < scorePrediction cv p
          then p else first) := by
      split_ifs with hsp
      · exact le_rfl
      · exact not_lt.mp hsp
    have hpick := ih (if scorePrediction cv first < scorePrediction cv p
      then p else first)
    rcases List.mem_cons.mp hq with rfl | hq2
    · exact le_trans hfirst (by rw [hred]; exact hpick _ (List.mem_cons_self _ _))
    rcases List.mem_cons.mp hq2 with rfl | hq3
    · exact le_trans hp (by rw [hred]; exact hpick _ (List.mem_cons_self _ _))
    · rw [hred]
      exact hpick q (List.mem_cons_of_mem _ hq3)

/-- C3 (amended): the chosen estimate maximises the score, so whenever some
biologically plausible estimate scores strictly higher than every implausible
one, the selected estimate is plausible.  (The -3 plausibility penalty biases
selection, but an implausible estimate can still win ties — see the
counterexample.) -/
theorem select_best_prediction_plausible_of_dominant
    (predictions : List PredEstimate) (current_value : ℚ) (p : PredEstimate)
    (hmem : p ∈ predictions) (hpl : plausibleEstimate p = true)
    (hdom : ∀ q ∈ predictions, plausibleEstimate q = false →
      scorePrediction current_value q < scorePrediction current_value p) :
    plausibleEstimate (selectBestPrediction predictions current_value) =
      true := by
  cases predictions with
  | nil => simp at hmem
  | cons f ps =>
    have hsel : selectBestPrediction (f :: ps) current_value =
        maxByScore current_value f ps := rfl
    have hselmem := maxByScore_mem current_value f ps
    have hge := maxByScore_ge current_value f ps p hmem
    rw [hsel]
    by_contra hnb
    have hb : plausibleEstimate (maxByScore current_value f ps) = false := by
      simpa using hnb
    exact absurd hge (not_le.mpr (hdom _ hselmem hb))

/-- An implausible high-confidence linear estimate. -/
def predLinLow : PredEstimate :=
  { predicted_value := some 15, confidence := "high",
    method := "linear_extrapolation" }

/-- A plausible low-confidence smoothing estimate. -/
def predExpOk : PredEstimate :=
  { predicted_value := some (524/10), confidence := "low",
    method := "exponential_smoothing" }

/-- C3 counterexample: with current value 60, the implausible estimate 15
(confidence high, linear bonus, -3 plausibility penalty: score 1) ties the
plausible estimate 52.4 (confidence low: score 1), and Python's `max` keeps
the first of a tie — so the selected estimate is the implausible one even
though a plausible candidate exists. -/
theorem select_best_prediction_tie_counterexample :
    selectBestPrediction [predLinLow, predExpOk] 60 = predLinLow ∧
      plausibleEstimate predExpOk = true ∧
      plausibleEstimate predLinLow = false := by
  refine ⟨?_, ?_, ?_⟩
  · have hs : selectBestPrediction [predLinLow, predExpOk] 60 =
        if scorePrediction 60 predLinLow < scorePrediction 60 predExpOk
          then predExpOk else predLinLow := rfl
    rw [hs, if_neg]
    have h1 : scorePrediction 60 predLinLow = 1 := by
      simp [scorePrediction, predLinLow]
      norm_num [abs_of_nonpos]
    have h2 : scorePrediction 60 predExpOk = 1 := by
      simp [scorePrediction, predExpOk]
      norm_num [abs_of_nonpos]
    rw [h1, h2]
    omega
  · simp [plausibleEstimate, predExpOk]
    norm_num
  · simp [plausibleEstimate, predLinLow]
    norm_num

/-- Witness for C3's amended theorem at a concrete ensemble. -/
theorem select_best_prediction_plausible_witness :
    plausibleEstimate (selectBestPrediction
      [{ predicted_value := some 10, confidence := "low", method := "x" },
       { predicted_value := some 100, confidence := "high",
         method := "linear_extrapolation" }] 100) = true := by
  apply select_best_prediction_plausible_of_dominant _ _
    { predicted_value := some 100, confidence := "high",
      method := "linear_extrapolation" }
  · simp
  · simp [plausibleEstimate]
    norm_num
  · intro q hq hqf
    rcases List.mem_cons.mp hq with rfl | hq2
    · have hqs : scorePrediction 100
          { predicted_value := some 10, confidence := "low",
            method := "x" } = -3 := by
        simp [scorePrediction]
        norm_num [abs_of_nonpos]
      have hps : scorePrediction 100
          { predicted_value := some 100, confidence := "high",
            method := "linear_extrapolation" } = 4 := by
        simp [scorePrediction]
        norm_num
      rw [hqs, hps]
      omega
    rcases List.mem_cons.mp hq2 with rfl | hq3
    · exfalso
      have : plausibleEstimate
          { predicted_value := some 100, confidence := "high",
            method := "linear_extrapolation" } = true := by
        simp [plausibleEstimate]
        norm_num
      rw [this] at hqf
      exact Bool.noConfusion hqf
    · simp at hq3

/-! ### C1: the rapid-insulin action curve is not monotone -/

/-- Closed form of the rapid branch strictly between the 75-minute peak and
the duration: the code assigns the decaying `remaining_fraction` to
`action_fraction`, so the *remaining* units are `units · (1 - 0.85·e^{-0.025·(t-75)}·(dur/180))`
— a quantity that grows as `t` grows. -/
lemma insulinAction_rapid_after_peak (t : ℝ) (h75 : 75 < t) (h180 : t < 180) :
    calculateInsulinAction 1 t 180 "rapid" =
      1 - 85/100 * Real.exp (-(25/1000) * (t - 75)) := by
  simp only [calculateInsulinAction]
  rw [if_neg (by linarith), if_pos trivial, if_neg (by linarith),
    if_neg (by linarith)]
  have hE : 1 - 15/100 - 85/100 * (1 - Real.exp (-(25/1000) * (t - 75))) =
      85/100 * Real.exp (-(25/1000) * (t - 75)) := by ring
  rw [hE]
  have hpos : (0:ℝ) ≤ 85/100 * Real.exp (-(25/1000) * (t - 75)) := by
    positivity
  rw [max_eq_right hpos]
  have hexp1 : Real.exp (-(25/1000) * (t - 75)) < 1 := by
    rw [Real.exp_lt_one_iff]
    nlinarith
  have hle1 : 85/100 * Real.exp (-(25/1000) * (t - 75)) * (180/180) ≤ 1 := by
    nlinarith [Real.exp_pos (-(25/1000) * (t - 75))]
  rw [min_eq_left hle1]
  ring

/-- C1 is violated by the code: for a 1-unit rapid dose with a 180-minute
duration, the computed remaining insulin at 76 minutes is strictly *below*
the remaining insulin at 150 minutes — remaining IOB grows with elapsed time
after the 75-minute peak, so the decay is not monotone. -/
theorem iob_rapid_decay_not_monotone :
    (76:ℝ) < 150 ∧
      calculateInsulinAction 1 76 180 "rapid" <
        calculateInsulinAction 1 150 180 "rapid" := by
  refine ⟨by norm_num, ?_⟩
  rw [insulinAction_rapid_after_peak 76 (by norm_num) (by norm_num),
    insulinAction_rapid_after_peak 150 (by norm_num) (by norm_num)]
  have hmono : Real.exp (-(25/1000 : ℝ) * (150 - 75)) <
      Real.exp (-(25/1000 : ℝ) * (76 - 75)) :=
    Real.exp_lt_exp.mpr (by norm_num)
  linarith

/-! ### C7: the 0.01-unit breakdown floor is strict -/

/-- Specification of the per-entry loop of `calculate_iob`: the accumulating
fold keeps exactly the entries whose remaining IOB strictly exceeds 0.01. -/
lemma iobFold_spec (current_time : ℝ) (entries : List InsulinEntry) :
    ∀ (a : ℝ) (bd : List IobBreakdown),
      entries.foldl
        (fun (acc : ℝ × List IobBreakdown) e =>
          if 1/100 < entryRemainingIob current_time e then
            (acc.1 + entryRemainingIob current_time e,
              acc.2 ++ [mkIobBreakdown current_time e])
          else acc) (a, bd) =
      (a + (((entries.filter fun e =>
          decide (1/100 < entryRemainingIob current_time e)).map
            (entryRemainingIob current_time)).sum),
       bd ++ (entries.filter fun e =>
          decide (1/100 < entryRemainingIob current_time e)).map
            (mkIobBreakdown current_time)) := by
  induction entries with
  | nil => intro a bd; simp
  | cons e es ih =>
    intro a bd
    rw [List.foldl_cons]
    by_cases hk : 1/100 < entryRemainingIob current_time e
    · rw [if_pos hk, ih, List.filter_cons, if_pos (by simpa using hk)]
      simp [add_assoc]
    · rw [if_neg hk, ih, List.filter_cons, if_neg (by simpa using hk)]

/-- C7 (amended): without an override, an insulin entry lands in the
breakdown and in the total exactly when its remaining amount *strictly
exceeds* 0.01 units (the source tests `remaining_iob > 0.01`, so a remaining
amount of exactly 0.01 is dropped). -/
theorem iob_breakdown_strict_floor (entries : List InsulinEntry)
    (current_time : ℝ) :
    (calculateIob entries current_time none).breakdown =
      (entries.filter fun e =>
        decide (1/100 < entryRemainingIob current_time e)).map
          (mkIobBreakdown current_time) ∧
    (calculateIob entries current_time none).total_iob =
      round2R (((entries.filter fun e =>
        decide (1/100 < entryRemainingIob current_time e)).map
          (entryRemainingIob current_time)).sum) := by
  constructor <;>
    · simp only [calculateIob]
      rw [iobFold_spec]
      simp

/-- An entry whose remaining IOB at the evaluation time is exactly 0.01:
0.02 units of linearly-absorbed insulin halfway through its 100-minute
duration. -/
noncomputable def entryBoundary : InsulinEntry :=
  { timestamp := 0, units := 2/100, insulin_type := "intermediate",
    duration_minutes := 100 }

lemma entryRemainingIob_boundary : entryRemainingIob 50 entryBoundary = 1/100 := by
  simp only [entryRemainingIob, entryBoundary, calculateInsulinAction]
  rw [if_neg (by norm_num), if_neg (by norm_num), if_neg (by decide),
    if_neg (by decide)]
  norm_num

/-- C7 counterexample: `entryBoundary` has remaining IOB exactly 0.01 — at
least the floor, so the claim would include it — yet `calculate_iob` returns
an empty breakdown and a zero total for it. -/
theorem iob_floor_boundary_counterexample :
    entryRemainingIob 50 entryBoundary = 1/100 ∧
      (calculateIob [entryBoundary] 50 none).breakdown = [] ∧
      (calculateIob [entryBoundary] 50 none).total_iob = 0 := by
  refine ⟨entryRemainingIob_boundary, ?_, ?_⟩
  · simp only [calculateIob, List.foldl_cons, List.foldl_nil,
      entryRemainingIob_boundary]
    rw [if_neg (by norm_num)]
  · simp only [calculateIob, List.foldl_cons, List.foldl_nil,
      entryRemainingIob_boundary]
    rw [if_neg (by norm_num)]
    norm_num [round2R]

end DiabetesRec
